import Mathlib

/-!
Verification of the jobFlow execution engine against its specification.

The definitions below are a shallow embedding of the Python sources:
  - src/domain/models.py        (ScriptConfig, FileRequirement, FileOutput, ExecutionResult)
  - src/domain/exceptions.py    (exception taxonomy)
  - src/infrastructure/logging/composite.py   (CompositeLogSink)
  - src/infrastructure/file_providers/composite.py (CompositeFileProvider._select_provider)
  - src/infrastructure/executors/local.py     (LocalSubprocessExecutor)
  - src/infrastructure/executors/lambda_exec.py (LambdaExecutor)

Python-specific behaviour is modelled explicitly: exceptions become an
`Except` return value, truthiness of optional lists is `pyTruthyList`,
`dict.update` is an iterated overwrite, and a `finally:` block that raises
replaces the in-flight outcome.
-/

namespace JobFlow

/-- Exceptions raised or caught by the engine.  `valueError`, `nameError` and
`fileNotFoundError` model the Python builtins; the last two constructors model
the classes of src/domain/exceptions.py (the module defines no other
exception type, in particular no distinct kind for a missing interpreter). -/
inductive PyExc where
  | valueError (msg : String)
  | nameError (undefinedName : String)
  | fileNotFoundError (msg : String)
  | scriptExecutionException (msg : String) (exit_code : Option Int)
  | invalidScriptException (msg : String)
  deriving Repr, DecidableEq

/-- True exactly for the `ScriptExecutionException` class. -/
def PyExc.isScriptExecutionExc : PyExc → Bool
  | .scriptExecutionException _ _ => true
  | _ => false

/-- True exactly for the `InvalidScriptException` class. -/
def PyExc.isInvalidScriptExc : PyExc → Bool
  | .invalidScriptException _ => true
  | _ => false

/-- Python `str(e)` of an exception: the message it was constructed with.
For `NameError` the quotes Python puts around the variable name are
elided (no modelled path ever stringifies a NameError). -/
def PyExc.pyStr : PyExc → String
  | .valueError m => m
  | .nameError n => "name " ++ n ++ " is not defined"
  | .fileNotFoundError m => m
  | .scriptExecutionException m _ => m
  | .invalidScriptException m => m

/-- ExecutionStatus from src/domain/models.py. -/
inductive ExecutionStatus where
  | success
  | failed
  | timeout
  | cancelled
  deriving Repr, DecidableEq

/-- FileRequirement from src/domain/models.py. -/
structure FileRequirement where
  source : String
  destination : String
  required : Bool := true
  deriving Repr, DecidableEq

/-- FileOutput from src/domain/models.py. -/
structure FileOutput where
  source : String
  destination : String
  required : Bool := false
  deriving Repr, DecidableEq

/-- ScriptConfig from src/domain/models.py.  `environment_variables` and
`metadata` are Python dicts, modelled as association lists in insertion
order (dict keys are unique). -/
structure ScriptConfig where
  script_path : String
  working_directory : Option String := none
  environment_variables : Option (List (String × String)) := none
  timeout_seconds : Option Nat := none
  file_requirements : Option (List FileRequirement) := none
  file_outputs : Option (List FileOutput) := none
  metadata : Option (List (String × String)) := none
  deriving Repr, DecidableEq

/-- ExecutionResult from src/domain/models.py.  Durations are modelled in
whole seconds. -/
structure ExecutionResult where
  status : ExecutionStatus
  exit_code : Option Int
  stdout : String
  stderr : String
  duration_seconds : Nat
  metadata : Option (List (String × String)) := none
  deriving Repr, DecidableEq

/-- Property is_success of ExecutionResult. -/
def ExecutionResult.is_success (r : ExecutionResult) : Bool :=
  r.status = ExecutionStatus.success

/-- Python truthiness of an optional list field: `None` and `[]` are falsy. -/
def pyTruthyList {α : Type} (l : Option (List α)) : Bool :=
  match l with
  | none => false
  | some xs => !xs.isEmpty

/-- `ScriptConfig.__post_init__`: raises `ValueError` when `script_path` is
falsy (the empty string); any other string passes. -/
def ScriptConfig.postInit (cfg : ScriptConfig) : Except PyExc Unit :=
  if cfg.script_path.isEmpty then
    .error (.valueError "script_path cannot be empty")
  else
    .ok ()

/-- Dataclass construction of a ScriptConfig: runs `__post_init__` and
returns the frozen instance when validation passes. -/
def mkScriptConfig (cfg : ScriptConfig) : Except PyExc ScriptConfig :=
  match cfg.postInit with
  | .error e => .error e
  | .ok _ => .ok cfg

/-- LogLevel from src/domain/logging.py. -/
inductive LogLevel where
  | debug
  | info
  | warning
  | error
  | critical
  deriving Repr, DecidableEq

/-- One (severity, message, metadata) event handed to `LogSink.emit`. -/
structure LogEvent where
  level : LogLevel
  message : String
  metadata : Option (List (String × String)) := none
  deriving Repr, DecidableEq

/-- Behaviour of one child sink: whether its `emit` raises on a given
event.  Delivery to the child is observable through the index lists
returned by the composite below. -/
structure ChildSink where
  failsOn : LogEvent → Bool

/-- Loop body of `CompositeLogSink.emit` (src/infrastructure/logging/composite.py,
lines 36-41): each child sink is tried in registration order; a child whose
`emit` raises is skipped (`except Exception: pass`) and the loop continues.
Returns the indices (from offset `i`) of children whose emit completed. -/
def emitLoop (e : LogEvent) : List ChildSink → Nat → List Nat
  | [], _ => []
  | s :: rest, i =>
      if s.failsOn e then emitLoop e rest (i + 1)
      else i :: emitLoop e rest (i + 1)

/-- `CompositeLogSink.emit`: returns immediately when closed, otherwise
broadcasts to all children via `emitLoop`.  The method itself never raises,
so the `Except` value is always `ok`, carrying the delivered indices. -/
def CompositeLogSink.emit (closed : Bool) (sinks : List ChildSink)
    (e : LogEvent) : Except PyExc (List Nat) :=
  if closed then .ok []
  else .ok (emitLoop e sinks 0)

/-- Python `str.startswith`, defined over the character lists. -/
def strStartsWith (s pre : String) : Bool :=
  pre.data.isPrefixOf s.data

/-- Lookup of a key in an association list modelling a Python dict
(dict keys are unique, so the first match is the only match). -/
def listLookup (pairs : List (String × String)) (k : String) : Option String :=
  match pairs with
  | [] => none
  | (a, v) :: rest => if k = a then some v else listLookup rest k

/-- Assignment `d[k] = v` on a dict modelled as a total lookup function. -/
def dictSet (d : String → Option String) (k v : String) : String → Option String :=
  fun x => if x = k then some v else d x

/-- Python `d.update(pairs)`: assigns every pair in iteration order. -/
def dictUpdate (d : String → Option String) (pairs : List (String × String)) :
    String → Option String :=
  pairs.foldl (fun acc kv => dictSet acc kv.1 kv.2) d

/-- `LocalSubprocessExecutor._build_environment`
(src/infrastructure/executors/local.py, lines 415-430): when the config
carries a truthy dict of overrides, copy the parent environment and update
it with the overrides; otherwise return `None`, which makes the subprocess
inherit the parent environment unchanged. -/
def LocalSubprocessExecutor.buildEnvironment
    (parentEnv : String → Option String) (cfg : ScriptConfig) :
    Option (String → Option String) :=
  match cfg.environment_variables with
  | some ov => if ov.isEmpty then none else some (dictUpdate parentEnv ov)
  | none => none

/-- Command line built by both execute paths of the subprocess executor
(src/infrastructure/executors/local.py, lines 61 and 173):
`[self._python_executable, config.script_path]`. -/
def LocalSubprocessExecutor.buildCommand (python_executable : String)
    (cfg : ScriptConfig) : List String :=
  [python_executable, cfg.script_path]

/-- Attributes of one registered FileProvider instance that
`CompositeFileProvider._select_provider` inspects.  Providers handed to the
constructor are instances (never classes), so the dead
`isinstance(provider, type)` branch of the local fallback is omitted, and
every FileProvider instance has a `get_file` attribute. -/
structure ProviderAttrs where
  isS3Instance : Bool := false
  nameHasS3 : Bool := false
  isHTTPInstance : Bool := false
  nameHasHTTP : Bool := false
  hasBucketName : Bool := false
  deriving Repr, DecidableEq

/-- First provider that the S3 branch accepts:
`isinstance(provider, S3FileProvider) or "S3" in type(provider).__name__`. -/
def findS3 (providers : List ProviderAttrs) : Option ProviderAttrs :=
  providers.find? (fun p => p.isS3Instance || p.nameHasS3)

/-- First provider that the HTTP branch accepts:
`isinstance(provider, HTTPFileProvider) or "HTTP" in type(provider).__name__`. -/
def findHTTP (providers : List ProviderAttrs) : Option ProviderAttrs :=
  providers.find? (fun p => p.isHTTPInstance || p.nameHasHTTP)

/-- First provider that the local fallback loop accepts: it has `get_file`
(always true for a FileProvider instance) and lacks the S3-specific
`_bucket_name` attribute. -/
def findLocalFallback (providers : List ProviderAttrs) : Option ProviderAttrs :=
  providers.find? (fun p => !p.hasBucketName)

/-- `CompositeFileProvider._select_provider`
(src/infrastructure/file_providers/composite.py, lines 118-155).  The two
prefix branches fall through when no registered provider matches; then the
local-fallback loop runs, then the default provider, and only when all of
these produce nothing is `ValueError` raised. -/
def selectProvider (providers : List ProviderAttrs)
    (default_provider : Option ProviderAttrs) (source_path : String) :
    Except PyExc ProviderAttrs :=
  match (if strStartsWith source_path "s3://" then findS3 providers else none) with
  | some p => .ok p
  | none =>
    match (if strStartsWith source_path "http://" || strStartsWith source_path "https://"
           then findHTTP providers else none) with
    | some p => .ok p
    | none =>
      match findLocalFallback providers with
      | some p => .ok p
      | none =>
        match default_provider with
        | some p => .ok p
        | none =>
            .error (.valueError
              ("No suitable file provider found for path: " ++ source_path))

/-- Outcome of one `get_file` / `get_file_async` call of the file provider
for a given (source, destination) pair: a staged local path, a
`FileNotFoundError`, or some other transfer exception with message. -/
inductive GetFileOutcome where
  | staged (path : String)
  | notFound
  | failed (msg : String)
  deriving Repr, DecidableEq

/-- Outcome of `subprocess.Popen` / `asyncio.create_subprocess_exec` plus the
subsequent wait: the spawn call raises `FileNotFoundError` (missing
interpreter binary), raises some other exception, or yields a process that
runs for `runSeconds` and then exits by itself with `exitCode`, its captured
output carried as lines per stream.  `communicate()` (line 81/97) and
`process.wait()` (line 206) are called without any timeout argument, so they
block until this natural exit; `subprocess.TimeoutExpired` and
`asyncio.TimeoutError` can never arise, leaving the handlers at lines
129-134 and 234-239 unreachable, and no kill/terminate is ever issued. -/
inductive SpawnOutcome where
  | notFound
  | spawnError (msg : String)
  | completes (runSeconds : Nat) (exitCode : Int)
      (stdoutLines stderrLines : List String)
  deriving Repr, DecidableEq

/-- `LocalSubprocessExecutor._stage_files_async`
(src/infrastructure/executors/local.py, lines 294-328): fetches each
requirement in declared order into `working_dir / destination`; a missing or
failing required file raises `ScriptExecutionException` naming the source,
a missing or failing optional file is skipped silently (this variant takes
no log sink, so no warning is emitted). -/
def stageFilesAsync (fetch : String → String → GetFileOutcome)
    (working_dir : String) : List FileRequirement → Except PyExc (List String)
  | [] => .ok []
  | req :: rest =>
      match fetch req.source (working_dir ++ "/" ++ req.destination) with
      | .staged p =>
          match stageFilesAsync fetch working_dir rest with
          | .ok ps => .ok (p :: ps)
          | .error e => .error e
      | .notFound =>
          if req.required then
            .error (.scriptExecutionException
              ("Required file not found: " ++ req.source) none)
          else stageFilesAsync fetch working_dir rest
      | .failed m =>
          if req.required then
            .error (.scriptExecutionException
              ("Failed to stage required file " ++ req.source ++ ": " ++ m) none)
          else stageFilesAsync fetch working_dir rest

/-- `LocalSubprocessExecutor._stage_files`
(src/infrastructure/executors/local.py, lines 249-292): like the async
variant but takes a log sink; it emits a Warning event naming the source for
an optional file that is missing, and swallows other optional failures
silently.  Returns the staged paths together with the warning messages
emitted.  This method is never called by `execute`. -/
def stageFiles (fetch : String → String → GetFileOutcome)
    (working_dir : String) :
    List FileRequirement → Except PyExc (List String × List String)
  | [] => .ok ([], [])
  | req :: rest =>
      match fetch req.source (working_dir ++ "/" ++ req.destination) with
      | .staged p =>
          match stageFiles fetch working_dir rest with
          | .ok (ps, ws) => .ok (p :: ps, ws)
          | .error e => .error e
      | .notFound =>
          if req.required then
            .error (.scriptExecutionException
              ("Required file not found: " ++ req.source) none)
          else
            match stageFiles fetch working_dir rest with
            | .ok (ps, ws) =>
                .ok (ps, ("Optional file not found (skipping): " ++ req.source) :: ws)
            | .error e => .error e
      | .failed m =>
          if req.required then
            .error (.scriptExecutionException
              ("Failed to stage required file " ++ req.source ++ ": " ++ m) none)
          else stageFiles fetch working_dir rest

/-- `LocalSubprocessExecutor.execute`
(src/infrastructure/executors/local.py, lines 37-142).  Inputs beyond the
config: the interpreter name, whether a file provider was passed to the
constructor, the spawn outcome, and the outcome of
`_upload_output_files` when it runs (its failure message).  Returns the
method outcome together with a flag recording whether `subprocess.Popen`
was invoked.  The body performs no staging: the `try` block goes straight
from `_build_environment` to `Popen`.  The `finally:` block (lines 138-142)
iterates over `staged_files`, a name never bound in this method, so whenever
a file provider is present the block raises `NameError`, which (by Python
`finally` semantics) replaces whatever return value or exception was in
flight. -/
def LocalSubprocessExecutor.execute (python_executable : String)
    (hasFileProvider : Bool) (cfg : ScriptConfig) (spawn : SpawnOutcome)
    (upload : Except String Unit) : Except PyExc ExecutionResult × Bool :=
  let tryBlock : Except PyExc ExecutionResult :=
    match spawn with
    | .notFound =>
        .error (.scriptExecutionException
          ("Python executable not found: " ++ python_executable) none)
    | .spawnError m =>
        .error (.scriptExecutionException
          ("Subprocess execution failed: " ++ m) none)
    | .completes runSeconds exitCode outLines errLines =>
        let result : ExecutionResult :=
          { status := if exitCode = 0 then .success else .failed
            exit_code := some exitCode
            stdout := String.intercalate "\n" outLines
            stderr := String.intercalate "\n" errLines
            duration_seconds := runSeconds
            metadata := cfg.metadata }
        if hasFileProvider && pyTruthyList cfg.file_outputs then
          match upload with
          | .ok _ => .ok result
          | .error m =>
              .error (.scriptExecutionException
                ("Subprocess execution failed: " ++ m) none)
        else .ok result
  if hasFileProvider then (.error (.nameError "staged_files"), true)
  else (tryBlock, true)

/-- One element yielded by the streaming protocol: an output line or the
terminal ExecutionResult. -/
inductive StreamItem where
  | line (s : String)
  | result (r : ExecutionResult)
  deriving Repr, DecidableEq

/-- `LocalSubprocessExecutor.execute_async`
(src/infrastructure/executors/local.py, lines 144-247).  Returns the items
the generator yielded, the exception escaping it (if any), and a flag
recording whether `asyncio.create_subprocess_exec` was invoked.  Staging
runs first (when a provider is present and requirements are truthy); a
staging failure escapes before any subprocess is created, but the
`ScriptExecutionException` that `_stage_files_async` raises is neither a
`FileNotFoundError` nor an `asyncio.TimeoutError`, so the generic
`except Exception` handler (lines 240-242) catches it and re-raises it
wrapped as "Async subprocess execution failed: str(e)".  `staged_files` is
initialised to `[]` before the `try`, so the cleanup loop of the `finally:`
block runs without error and has no observable effect here.  Stdout lines
are yielded first, then stderr lines, then — after a successful upload —
the terminal result; an upload failure is wrapped by the generic
`except Exception` handler and the result is never yielded. -/
def LocalSubprocessExecutor.executeAsync (python_executable : String)
    (hasFileProvider : Bool) (cfg : ScriptConfig) (cwd : String)
    (fetch : String → String → GetFileOutcome) (spawn : SpawnOutcome)
    (upload : Except String Unit) :
    List StreamItem × Option PyExc × Bool :=
  let working_dir := match cfg.working_directory with
    | some wd => wd
    | none => cwd
  let staging : Except PyExc (List String) :=
    if hasFileProvider && pyTruthyList cfg.file_requirements then
      stageFilesAsync fetch working_dir
        (cfg.file_requirements.getD [])
    else .ok []
  match staging with
  | .error e =>
      ([], some (.scriptExecutionException
        ("Async subprocess execution failed: " ++ e.pyStr) none), false)
  | .ok _ =>
    match spawn with
    | .notFound =>
        ([], some (.scriptExecutionException
          ("Python executable not found: " ++ python_executable) none), true)
    | .spawnError m =>
        ([], some (.scriptExecutionException
          ("Async subprocess execution failed: " ++ m) none), true)
    | .completes runSeconds exitCode outLines errLines =>
        let items : List StreamItem := (outLines ++ errLines).map .line
        let result : ExecutionResult :=
          { status := if exitCode = 0 then .success else .failed
            exit_code := some exitCode
            stdout := String.intercalate "\n" outLines
            stderr := String.intercalate "\n" errLines
            duration_seconds := runSeconds
            metadata := cfg.metadata }
        if hasFileProvider && pyTruthyList cfg.file_outputs then
          match upload with
          | .ok _ => (items ++ [.result result], none, true)
          | .error m =>
              (items, some (.scriptExecutionException
                ("Async subprocess execution failed: " ++ m) none), true)
        else (items ++ [.result result], none, true)

/-- Process-wide mutable state touched by the in-process executor:
`sys.stdout` / `sys.stderr` (identified by a tag naming the stream object
they currently refer to), the working directory, and the environment dict.
-/
structure HostState where
  stdoutRef : String
  stderrRef : String
  cwd : String
  env : String → Option String

/-- Behaviour of the loaded script when `exec_module` runs: it returns
normally, raises `SystemExit` (with `none` modelling `sys.exit()` or a
non-integer code, for which `isinstance(e.code, int)` is false), or raises
some other exception. -/
inductive ScriptOutcome where
  | normal
  | sysExit (code : Option Int)
  | raises (msg : String)
  deriving Repr, DecidableEq

/-- Text `traceback.print_exc()` writes to the redirected stderr when the
script raises. -/
def tracebackText (msg : String) : String :=
  "Traceback (most recent call last):\n" ++ msg ++ "\n"

/-- `LambdaExecutor.execute`
(src/infrastructure/executors/lambda_exec.py, lines 42-168), as a transformer
of `HostState`.  Inputs beyond the config: whether a file provider was
given, the outcome of `_stage_files` when staging runs (carrying the raised
message on failure), the script behaviour with the stdout/stderr text it
produced, the outcome of `_upload_output_files` when it runs, and the wall
time of the run.  The control flow mirrors the source: staging happens
before any process-wide mutation; then stdout/stderr are redirected to the
capture buffers, the config environment overrides are written into
`os.environ` (lines 78-82 — they are never removed afterwards), and the cwd
is changed when configured; the inner `finally` (lines 119-128) restores
cwd (only when `original_cwd` was set) and both streams; a failure in
upload raises inside the outer `try`, whose handler (lines 158-163)
re-restores the streams and wraps the error; the outer `finally` only
cleans staged files and does not touch host state. -/
def LambdaExecutor.execute (hasFileProvider : Bool) (cfg : ScriptConfig)
    (staging : Except String Unit) (script : ScriptOutcome)
    (scriptOut scriptErr : String) (upload : Except String Unit)
    (runSeconds : Nat) (s : HostState) :
    Except PyExc ExecutionResult × HostState :=
  let original_stdout := s.stdoutRef
  let original_stderr := s.stderrRef
  let stagingResult : Except String Unit :=
    if hasFileProvider && pyTruthyList cfg.file_requirements then staging
    else .ok ()
  match stagingResult with
  | .error m =>
      -- the outer handler reassigns sys.stdout / sys.stderr, which at this
      -- point still hold their original values, so the state is unchanged
      (.error (.scriptExecutionException
        ("In-process execution failed: " ++ m) none), s)
  | .ok _ =>
    -- redirect streams to the capture buffers
    let s1 : HostState := { s with stdoutRef := "capture", stderrRef := "capture" }
    -- apply environment overrides (os.environ[key] = value per pair)
    let s2 : HostState :=
      match cfg.environment_variables with
      | some ov => { s1 with env := dictUpdate s1.env ov }
      | none => s1
    -- change working directory when configured, remembering the old one
    let original_cwd : Option String :=
      match cfg.working_directory with
      | some _ => some s.cwd
      | none => none
    let s3 : HostState :=
      match cfg.working_directory with
      | some wd => { s2 with cwd := wd }
      | none => s2
    -- inner try: run the script and classify its outcome
    let outcome : Int × ExecutionStatus × String :=
      match script with
      | .normal => (0, .success, scriptErr)
      | .sysExit (some c) =>
          (c, if c = 0 then .success else .failed, scriptErr)
      | .sysExit none => (0, .success, scriptErr)
      | .raises m => (1, .failed, scriptErr ++ tracebackText m)
    -- inner finally: restore cwd (getcwd is never falsy) and both streams
    let s4 : HostState :=
      match original_cwd with
      | some c => { s3 with cwd := c }
      | none => s3
    let s5 : HostState :=
      { s4 with stdoutRef := original_stdout, stderrRef := original_stderr }
    let result : ExecutionResult :=
      { status := outcome.2.1
        exit_code := some outcome.1
        stdout := scriptOut
        stderr := outcome.2.2
        duration_seconds := runSeconds
        metadata := cfg.metadata }
    if hasFileProvider && pyTruthyList cfg.file_outputs then
      match upload with
      | .ok _ => (.ok result, s5)
      | .error m =>
          -- outer handler: streams are reassigned to the originals again
          let s6 : HostState :=
            { s5 with stdoutRef := original_stdout, stderrRef := original_stderr }
          (.error (.scriptExecutionException
            ("In-process execution failed: " ++ m) none), s6)
    else (.ok result, s5)

/-- Status of a method outcome, when it produced a result. -/
def statusOf (x : Except PyExc ExecutionResult) : Option ExecutionStatus :=
  match x with
  | .ok r => some r.status
  | .error _ => none

/-- Exit code of a method outcome, when it produced a result. -/
def exitCodeOf (x : Except PyExc ExecutionResult) : Option (Option Int) :=
  match x with
  | .ok r => some r.exit_code
  | .error _ => none

/-! Helper lemmas shared by the claim theorems. -/

/-- Lookup misses every pair whose key differs from `k`. -/
theorem listLookup_of_not_mem {pairs : List (String × String)} {k : String}
    (h : k ∉ pairs.map Prod.fst) : listLookup pairs k = none := by
  induction pairs with
  | nil => rfl
  | cons hd tl ih =>
      simp only [List.map_cons, List.mem_cons, not_or] at h
      simp only [listLookup, if_neg h.1, ih h.2]

/-- Keys absent from the update list keep their prior value. -/
theorem dictUpdate_lookup_none {d : String → Option String}
    {pairs : List (String × String)} {k : String}
    (h : listLookup pairs k = none) : dictUpdate d pairs k = d k := by
  induction pairs generalizing d with
  | nil => rfl
  | cons hd tl ih =>
      rcases hd with ⟨a, v⟩
      simp only [listLookup] at h
      by_cases hk : k = a
      · simp [hk] at h
      · simp only [if_neg hk] at h
        simp only [dictUpdate, List.foldl_cons]
        have := ih (d := dictSet d a v) h
        simp only [dictUpdate] at this
        rw [this]
        simp [dictSet, if_neg hk]

/-- With unique keys, a key present in the update list ends up mapped to its
listed value. -/
theorem dictUpdate_lookup_some {d : String → Option String}
    {pairs : List (String × String)} {k v : String}
    (hnd : (pairs.map Prod.fst).Nodup)
    (h : listLookup pairs k = some v) : dictUpdate d pairs k = some v := by
  induction pairs generalizing d with
  | nil => simp [listLookup] at h
  | cons hd tl ih =>
      rcases hd with ⟨a, w⟩
      simp only [List.map_cons, List.nodup_cons] at hnd
      simp only [listLookup] at h
      by_cases hk : k = a
      · simp only [if_pos hk] at h
        injection h with hv
        subst hv; subst hk
        simp only [dictUpdate, List.foldl_cons]
        have hnone : listLookup tl k = none := listLookup_of_not_mem hnd.1
        have := dictUpdate_lookup_none (d := dictSet d k w) hnone
        simp only [dictUpdate] at this
        rw [this]
        simp [dictSet]
      · simp only [if_neg hk] at h
        simp only [dictUpdate, List.foldl_cons]
        exact ih (d := dictSet d a w) hnd.2 h

/-- Unfolding of `emitLoop` as a filtered enumeration: the loop visits the
children in order from offset `i` and keeps exactly those whose emit does
not raise. -/
theorem emitLoop_eq_enumFrom (e : LogEvent) (sinks : List ChildSink) (i : Nat) :
    emitLoop e sinks i =
      ((List.enumFrom i sinks).filter (fun p => !p.2.failsOn e)).map Prod.fst := by
  induction sinks generalizing i with
  | nil => rfl
  | cons s rest ih =>
      cases hf : s.failsOn e <;>
        simp [emitLoop, hf, List.enumFrom, List.filter_cons, ih]

/-! Concrete fixtures used by closed theorems. -/

/-- Minimal valid configuration. -/
def cfgBase : ScriptConfig := { script_path := "script.py" }

/-- Configuration with a one-second timeout for a script that runs longer. -/
def cfgTimeout : ScriptConfig :=
  { script_path := "sleepy.py", timeout_seconds := some 1 }

/-- Configuration declaring one required input file whose source is absent. -/
def cfgRequiredInput : ScriptConfig :=
  { script_path := "job.py"
    working_directory := some "/work"
    file_requirements := some [{ source := "missing.txt", destination := "in.txt" }] }

/-- Provider behaviour where every fetch raises `FileNotFoundError`. -/
def fetchAllMissing : String → String → GetFileOutcome := fun _ _ => .notFound

/-! Claim theorems. -/

/-- C4: every event emitted through the composite log sink reaches the child
sinks in registration order; a child whose emit raises is skipped with the
exception suppressed, every subsequent child still receives the event, and
the call always returns normally (`ok`) to the emitting caller — the
delivered children are exactly the non-failing ones, enumerated in order. -/
theorem composite_emit_fanout (sinks : List ChildSink) (e : LogEvent) :
    CompositeLogSink.emit false sinks e =
      .ok ((sinks.enum.filter (fun p => !p.2.failsOn e)).map Prod.fst) := by
  simp only [CompositeLogSink.emit, Bool.false_eq_true, if_false, List.enum,
    emitLoop_eq_enumFrom]

/-- C9 counterexample: constructing a ScriptConfig with an empty script
location fails, but with the builtin `ValueError`, which is not the
`InvalidScriptException` domain error (that class is defined in
src/domain/exceptions.py yet never raised by this validation). -/
theorem empty_script_path_valueerror :
    mkScriptConfig { script_path := "" } =
      .error (.valueError "script_path cannot be empty") ∧
    (PyExc.valueError "script_path cannot be empty").isInvalidScriptExc = false :=
  ⟨rfl, rfl⟩

/-- C9 amended: every attempt to construct a ScriptConfig with an empty
script location fails validation with `ValueError` (not the InvalidScript
domain error); every construction with a non-empty script location passes
this validation and returns the instance. -/
theorem script_path_validation (cfg : ScriptConfig) :
    (cfg.script_path = "" →
      mkScriptConfig cfg = .error (.valueError "script_path cannot be empty")) ∧
    (cfg.script_path ≠ "" → mkScriptConfig cfg = .ok cfg) := by
  constructor
  · intro h
    simp [mkScriptConfig, ScriptConfig.postInit, String.isEmpty_iff, h]
  · intro h
    simp [mkScriptConfig, ScriptConfig.postInit, String.isEmpty_iff, h]

/-- Witness for C9: the validation refuses the empty path and accepts
"script.py". -/
theorem script_path_validation_witness :
    mkScriptConfig { script_path := "" } =
      .error (.valueError "script_path cannot be empty") ∧
    mkScriptConfig cfgBase = .ok cfgBase :=
  ⟨(script_path_validation { script_path := "" }).1 rfl,
   (script_path_validation cfgBase).2 (by decide)⟩

/-- C10: every synchronous `execute` call on a subprocess executor that was
constructed with a file provider ends in a `NameError` raised from the
cleanup block, regardless of the configuration, the subprocess outcome and
the upload outcome, because the synchronous path never binds (nor performs)
the staging whose results the `finally:` block iterates over — and the
subprocess is spawned anyway. -/
theorem sync_execute_nameerror (python_executable : String)
    (cfg : ScriptConfig) (spawn : SpawnOutcome) (upload : Except String Unit) :
    LocalSubprocessExecutor.execute python_executable true cfg spawn upload =
      (.error (.nameError "staged_files"), true) :=
  rfl

/-- C5 counterexample: a missing interpreter binary makes the synchronous
execute fail with `ScriptExecutionException` — the very same class raised
for any other subprocess failure — distinguished only by its message; the
exception taxonomy of src/domain/exceptions.py contains no distinct
ExecutorNotFound type. -/
theorem missing_interpreter_generic_exception :
    LocalSubprocessExecutor.execute "python3" false cfgBase .notFound (.ok ()) =
      (.error (.scriptExecutionException "Python executable not found: python3" none),
        true) ∧
    LocalSubprocessExecutor.execute "python3" false cfgBase (.spawnError "boom")
        (.ok ()) =
      (.error (.scriptExecutionException "Subprocess execution failed: boom" none),
        true) ∧
    (PyExc.scriptExecutionException "Python executable not found: python3"
        none).isScriptExecutionExc = true :=
  ⟨rfl, rfl, rfl⟩

/-- C5 amended: when the configured interpreter binary does not exist, the
spawn failure surfaces as the generic `ScriptExecutionException` with a
message naming the missing executable — the code has no distinct
ExecutorNotFound error type.  The provider-less synchronous path reports
exactly that exception, as does every streaming path that reaches the spawn
(no staging step configured, or staging succeeded); a synchronous executor
constructed with a file provider instead masks it with the `NameError` of
its cleanup block. -/
theorem missing_interpreter_message :
    (∀ (python_executable : String) (cfg : ScriptConfig)
        (upload : Except String Unit),
      LocalSubprocessExecutor.execute python_executable false cfg .notFound
          upload =
        (.error (.scriptExecutionException
          ("Python executable not found: " ++ python_executable) none), true)) ∧
    (∀ (python_executable : String) (cfg : ScriptConfig)
        (upload : Except String Unit),
      LocalSubprocessExecutor.execute python_executable true cfg .notFound
          upload =
        (.error (.nameError "staged_files"), true)) ∧
    (∀ (python_executable : String) (hasFileProvider : Bool)
        (cfg : ScriptConfig) (cwd : String)
        (fetch : String → String → GetFileOutcome) (upload : Except String Unit),
      (hasFileProvider && pyTruthyList cfg.file_requirements) = false →
      LocalSubprocessExecutor.executeAsync python_executable hasFileProvider cfg
          cwd fetch .notFound upload =
        ([], some (.scriptExecutionException
          ("Python executable not found: " ++ python_executable) none), true)) ∧
    (∀ (python_executable : String) (cfg : ScriptConfig) (cwd : String)
        (fetch : String → String → GetFileOutcome) (upload : Except String Unit)
        (staged : List String),
      stageFilesAsync fetch
          (match cfg.working_directory with | some wd => wd | none => cwd)
          (cfg.file_requirements.getD []) = .ok staged →
      LocalSubprocessExecutor.executeAsync python_executable true cfg cwd fetch
          .notFound upload =
        ([], some (.scriptExecutionException
          ("Python executable not found: " ++ python_executable) none), true)) := by
  refine ⟨fun _ _ _ => rfl, fun _ _ _ => rfl, ?_, ?_⟩
  · intro exe hasP cfg cwd fetch upload h
    simp [LocalSubprocessExecutor.executeAsync, h]
  · intro exe cfg cwd fetch upload staged h
    cases hp : pyTruthyList cfg.file_requirements <;>
      simp [LocalSubprocessExecutor.executeAsync, hp, h]

/-- Witness for C5: concrete runs at interpreter "python3" — provider-less
sync, provider-carrying sync, provider-less streaming, and provider-carrying
streaming whose one required file stages successfully. -/
theorem missing_interpreter_message_witness :
    LocalSubprocessExecutor.execute "python3" false cfgBase .notFound (.ok ()) =
      (.error (.scriptExecutionException
        "Python executable not found: python3" none), true) ∧
    LocalSubprocessExecutor.execute "python3" true cfgBase .notFound (.ok ()) =
      (.error (.nameError "staged_files"), true) ∧
    LocalSubprocessExecutor.executeAsync "python3" false cfgBase "/cwd"
        fetchAllMissing .notFound (.ok ()) =
      ([], some (.scriptExecutionException
        "Python executable not found: python3" none), true) ∧
    LocalSubprocessExecutor.executeAsync "python3" true cfgRequiredInput "/cwd"
        (fun _ _ => .staged "/work/in.txt") .notFound (.ok ()) =
      ([], some (.scriptExecutionException
        "Python executable not found: python3" none), true) :=
  ⟨missing_interpreter_message.1 "python3" cfgBase (.ok ()),
   missing_interpreter_message.2.1 "python3" cfgBase (.ok ()),
   missing_interpreter_message.2.2.1 "python3" false cfgBase "/cwd"
     fetchAllMissing (.ok ()) rfl,
   missing_interpreter_message.2.2.2 "python3" cfgRequiredInput "/cwd"
     (fun _ _ => .staged "/work/in.txt") (.ok ()) ["/work/in.txt"] rfl⟩

/-- C1: the configured timeout is never enforced.  With a one-second timeout
and a process that runs for five seconds, the synchronous execute waits for
the natural exit and returns Success with exit code 0 (`communicate()` is
called without a timeout argument), and the streaming execute does the same
(`process.wait()` without a deadline); neither path terminates the process
or produces status Timeout. -/
theorem timeout_never_enforced :
    LocalSubprocessExecutor.execute "python3" false cfgTimeout
        (.completes 5 0 ["done"] []) (.ok ()) =
      (.ok { status := .success, exit_code := some 0, stdout := "done",
             stderr := "", duration_seconds := 5, metadata := none }, true) ∧
    LocalSubprocessExecutor.executeAsync "python3" false cfgTimeout "/work"
        fetchAllMissing (.completes 5 0 ["done"] []) (.ok ()) =
      ([.line "done",
        .result { status := .success, exit_code := some 0, stdout := "done",
                  stderr := "", duration_seconds := 5, metadata := none }],
        none, true) :=
  ⟨rfl, rfl⟩

/-- C2: with a file provider and one required FileRequirement whose source
is missing, the synchronous execute does not abort before the subprocess —
it performs no staging at all, consumes the subprocess outcome and then
fails with the `NameError` of its cleanup block instead of a staging error
naming the source; only the streaming execute aborts before any subprocess
is created, raising a `ScriptExecutionException` that names the missing
source (re-wrapped by the generic handler of execute_async). -/
theorem sync_execute_never_stages :
    LocalSubprocessExecutor.execute "python3" true cfgRequiredInput
        (.completes 0 0 [] []) (.ok ()) =
      (.error (.nameError "staged_files"), true) ∧
    LocalSubprocessExecutor.executeAsync "python3" true cfgRequiredInput "/cwd"
        fetchAllMissing (.completes 0 0 [] []) (.ok ()) =
      ([], some (.scriptExecutionException
        "Async subprocess execution failed: Required file not found: missing.txt"
        none), false) :=
  ⟨rfl, rfl⟩

/-- Host state used by the in-process counterexample. -/
def hostState0 : HostState :=
  { stdoutRef := "sys_stdout", stderrRef := "sys_stderr",
    cwd := "/home/user", env := fun _ => none }

/-- Configuration with one environment variable override. -/
def cfgEnvOverride : ScriptConfig :=
  { script_path := "job.py",
    environment_variables := some [("API_KEY", "abc")] }

/-- C3 counterexample: a successful in-process run with an environment
override leaves that override in the process-wide environment after the
call returns — `os.environ["API_KEY"]` is set at line 82 of
lambda_exec.py and never restored — so the pre-run value (unset) is not
recovered. -/
theorem lambda_env_override_persists :
    (LambdaExecutor.execute false cfgEnvOverride (.ok ()) .normal "" ""
        (.ok ()) 1 hostState0).2.env "API_KEY" = some "abc" ∧
    hostState0.env "API_KEY" = none :=
  ⟨rfl, rfl⟩

/-- C3 amended: on every exit path of the in-process executor — staging
failure, normal script completion, SystemExit, a raising script, and upload
failure — the standard stream redirections and the working directory are
restored to their pre-run values, and environment keys not named in the
config overrides keep their pre-run values; the override keys themselves,
however, persist (see the counterexample). -/
theorem lambda_restores_streams_and_cwd (hasFileProvider : Bool)
    (cfg : ScriptConfig) (staging : Except String Unit)
    (script : ScriptOutcome) (scriptOut scriptErr : String)
    (upload : Except String Unit) (runSeconds : Nat) (s : HostState) :
    (LambdaExecutor.execute hasFileProvider cfg staging script scriptOut
        scriptErr upload runSeconds s).2.stdoutRef = s.stdoutRef ∧
    (LambdaExecutor.execute hasFileProvider cfg staging script scriptOut
        scriptErr upload runSeconds s).2.stderrRef = s.stderrRef ∧
    (LambdaExecutor.execute hasFileProvider cfg staging script scriptOut
        scriptErr upload runSeconds s).2.cwd = s.cwd ∧
    ∀ k, listLookup (cfg.environment_variables.getD []) k = none →
      (LambdaExecutor.execute hasFileProvider cfg staging script scriptOut
        scriptErr upload runSeconds s).2.env k = s.env k := by
  rcases cfg with ⟨sp, wd, ev, ts, fr, fo, md⟩
  unfold LambdaExecutor.execute
  dsimp only
  split
  · exact ⟨rfl, rfl, rfl, fun _ _ => rfl⟩
  · cases wd <;> cases ev <;>
      split <;>
      first
        | exact ⟨rfl, rfl, rfl, fun _ _ => rfl⟩
        | exact ⟨rfl, rfl, rfl, fun k hk => dictUpdate_lookup_none hk⟩
        | (split <;>
            first
              | exact ⟨rfl, rfl, rfl, fun _ _ => rfl⟩
              | exact ⟨rfl, rfl, rfl, fun k hk => dictUpdate_lookup_none hk⟩)

/-- Witness for C3: a run with working directory "/work", an override for
API_KEY and a raising script restores streams and cwd and leaves the
unrelated key HOME untouched. -/
theorem lambda_restores_streams_and_cwd_witness :
    (LambdaExecutor.execute false
        { script_path := "job.py", working_directory := some "/work",
          environment_variables := some [("API_KEY", "abc")] }
        (.ok ()) (.raises "ValueError: bad input") "" "" (.ok ()) 1
        hostState0).2.cwd = hostState0.cwd ∧
    (LambdaExecutor.execute false
        { script_path := "job.py", working_directory := some "/work",
          environment_variables := some [("API_KEY", "abc")] }
        (.ok ()) (.raises "ValueError: bad input") "" "" (.ok ()) 1
        hostState0).2.env "HOME" = hostState0.env "HOME" :=
  ⟨(lambda_restores_streams_and_cwd false
      { script_path := "job.py", working_directory := some "/work",
        environment_variables := some [("API_KEY", "abc")] }
      (.ok ()) (.raises "ValueError: bad input") "" "" (.ok ()) 1
      hostState0).2.2.1,
   (lambda_restores_streams_and_cwd false
      { script_path := "job.py", working_directory := some "/work",
        environment_variables := some [("API_KEY", "abc")] }
      (.ok ()) (.raises "ValueError: bad input") "" "" (.ok ()) 1
      hostState0).2.2.2 "HOME" (by decide)⟩

/-- C7: a script run by the in-process executor that raises SystemExit is
not treated as a fatal engine error: with termination code 0 the result has
status Success, and with any nonzero termination code the result has status
Failed and records that code as the exit code. -/
theorem lambda_systemexit_mapping (cfg : ScriptConfig)
    (scriptOut scriptErr : String) (runSeconds : Nat) (s : HostState)
    (c : Int) (hc : c ≠ 0) :
    statusOf (LambdaExecutor.execute false cfg (.ok ()) (.sysExit (some 0))
        scriptOut scriptErr (.ok ()) runSeconds s).1 = some .success ∧
    exitCodeOf (LambdaExecutor.execute false cfg (.ok ()) (.sysExit (some 0))
        scriptOut scriptErr (.ok ()) runSeconds s).1 = some (some 0) ∧
    statusOf (LambdaExecutor.execute false cfg (.ok ()) (.sysExit (some c))
        scriptOut scriptErr (.ok ()) runSeconds s).1 = some .failed ∧
    exitCodeOf (LambdaExecutor.execute false cfg (.ok ()) (.sysExit (some c))
        scriptOut scriptErr (.ok ()) runSeconds s).1 = some (some c) := by
  refine ⟨rfl, rfl, ?_, ?_⟩ <;>
    simp [LambdaExecutor.execute, statusOf, exitCodeOf, if_neg hc]

/-- Witness for C7: SystemExit with code 2 yields a Failed result carrying
exit code 2, while code 0 yields Success. -/
theorem lambda_systemexit_mapping_witness :
    statusOf (LambdaExecutor.execute false cfgBase (.ok ()) (.sysExit (some 0))
        "" "" (.ok ()) 1 hostState0).1 = some .success ∧
    statusOf (LambdaExecutor.execute false cfgBase (.ok ()) (.sysExit (some 2))
        "" "" (.ok ()) 1 hostState0).1 = some .failed ∧
    exitCodeOf (LambdaExecutor.execute false cfgBase (.ok ())
        (.sysExit (some 2)) "" "" (.ok ()) 1 hostState0).1 = some (some 2) :=
  ⟨(lambda_systemexit_mapping cfgBase "" "" 1 hostState0 2 (by decide)).1,
   (lambda_systemexit_mapping cfgBase "" "" 1 hostState0 2 (by decide)).2.2.1,
   (lambda_systemexit_mapping cfgBase "" "" 1 hostState0 2 (by decide)).2.2.2⟩

/-- An HTTP provider instance as `_select_provider` sees it. -/
def httpProv : ProviderAttrs := { isHTTPInstance := true, nameHasHTTP := true }

/-- An S3 provider instance as `_select_provider` sees it (the class carries
the `_bucket_name` attribute). -/
def s3Prov : ProviderAttrs :=
  { isS3Instance := true, nameHasS3 := true, hasBucketName := true }

/-- C6 counterexample: for an object-storage path with no registered
provider matching the s3 prefix and no default provider configured, the
selection does not fail with the "no suitable provider" error — the local
fallback loop silently returns the HTTP provider (it has `get_file` and
lacks `_bucket_name`). -/
theorem select_provider_silent_fallback :
    selectProvider [httpProv] none "s3://bucket/key" = .ok httpProv ∧
    httpProv.isS3Instance = false ∧ httpProv.nameHasS3 = false :=
  ⟨rfl, rfl, rfl⟩

/-- C6 amended: a child is selected by scheme-like prefix — an s3 path takes
the first S3-matching provider and a web URL the first HTTP-matching one —
but when no provider matches the prefix, the selection falls through to a
local-provider heuristic that returns the first provider lacking the S3
bucket attribute; only when that heuristic also finds nothing and no
default provider is configured does the operation fail with the
"no suitable provider" error. -/
theorem select_provider_routing :
    (∀ (providers : List ProviderAttrs) (dflt : Option ProviderAttrs)
        (path : String) (p : ProviderAttrs),
      strStartsWith path "s3://" = true → findS3 providers = some p →
      selectProvider providers dflt path = .ok p) ∧
    (∀ (providers : List ProviderAttrs) (dflt : Option ProviderAttrs)
        (path : String) (p : ProviderAttrs),
      strStartsWith path "s3://" = false →
      (strStartsWith path "http://" = true ∨ strStartsWith path "https://" = true) →
      findHTTP providers = some p →
      selectProvider providers dflt path = .ok p) ∧
    (∀ (providers : List ProviderAttrs) (path : String),
      findS3 providers = none → findHTTP providers = none →
      findLocalFallback providers = none →
      selectProvider providers none path =
        .error (.valueError ("No suitable file provider found for path: " ++ path))) := by
  refine ⟨?_, ?_, ?_⟩
  · intro providers dflt path p h1 h2
    simp [selectProvider, h1, h2]
  · intro providers dflt path p h1 h2 h3
    rcases h2 with h2 | h2 <;> simp [selectProvider, h1, h2, h3]
  · intro providers path h1 h2 h3
    unfold selectProvider
    cases strStartsWith path "s3://" <;>
      cases strStartsWith path "http://" <;>
      cases strStartsWith path "https://" <;>
      simp [h1, h2, h3]

/-- Witness for C6: an s3 path routes to the S3 provider, a web URL to the
HTTP provider, and with no registered providers and no default the
selection fails with the "no suitable provider" error. -/
theorem select_provider_routing_witness :
    selectProvider [httpProv, s3Prov] none "s3://bucket/key" = .ok s3Prov ∧
    selectProvider [s3Prov, httpProv] none "https://host/file" = .ok httpProv ∧
    selectProvider [] none "ftp://host/file" =
      .error (.valueError "No suitable file provider found for path: ftp://host/file") :=
  ⟨select_provider_routing.1 [httpProv, s3Prov] none "s3://bucket/key" s3Prov
      rfl rfl,
   select_provider_routing.2.1 [s3Prov, httpProv] none "https://host/file" httpProv
      rfl (Or.inr rfl) rfl,
   select_provider_routing.2.2 [] "ftp://host/file" rfl rfl rfl⟩

/-- C8: the subprocess executor runs the configured interpreter with the
script path as sole argument; with a truthy set of environment overrides the
built environment is the parent environment updated with the overrides —
every overridden key maps to the config value and every other key keeps its
parent value — and with no overrides (None or an empty dict) it returns
None, so the parent environment is inherited unchanged. -/
theorem build_environment_merge (parentEnv : String → Option String)
    (python_executable : String) (cfg : ScriptConfig) :
    LocalSubprocessExecutor.buildCommand python_executable cfg =
      [python_executable, cfg.script_path] ∧
    (∀ ov, cfg.environment_variables = some ov →
      (ov.map Prod.fst).Nodup → ov ≠ [] →
      ∃ env, LocalSubprocessExecutor.buildEnvironment parentEnv cfg = some env ∧
        (∀ k v, listLookup ov k = some v → env k = some v) ∧
        (∀ k, listLookup ov k = none → env k = parentEnv k)) ∧
    ((cfg.environment_variables = none ∨ cfg.environment_variables = some []) →
      LocalSubprocessExecutor.buildEnvironment parentEnv cfg = none) := by
  refine ⟨rfl, ?_, ?_⟩
  · intro ov hov hnd hne
    refine ⟨dictUpdate parentEnv ov, ?_, ?_, ?_⟩
    · simp [LocalSubprocessExecutor.buildEnvironment, hov,
        List.isEmpty_iff, hne]
    · intro k v hk
      exact dictUpdate_lookup_some hnd hk
    · intro k hk
      exact dictUpdate_lookup_none hk
  · rintro (h | h) <;>
      simp [LocalSubprocessExecutor.buildEnvironment, h]

/-- Witness for C8: with parent environment {PATH ↦ /bin, HOME ↦ /root} and
override {PATH ↦ /opt}, the merged environment maps PATH to /opt and keeps
HOME at /root; with no overrides the builder returns None (inherit). -/
theorem build_environment_merge_witness :
    (∃ env,
      LocalSubprocessExecutor.buildEnvironment
        (fun k => if k = "PATH" then some "/bin"
                  else if k = "HOME" then some "/root" else none)
        { script_path := "job.py",
          environment_variables := some [("PATH", "/opt")] } = some env ∧
      (∀ k v, listLookup [("PATH", "/opt")] k = some v → env k = some v) ∧
      (∀ k, listLookup [("PATH", "/opt")] k = none →
        env k = (fun k => if k = "PATH" then some "/bin"
                  else if k = "HOME" then some "/root" else none) k)) ∧
    LocalSubprocessExecutor.buildEnvironment
      (fun k => if k = "PATH" then some "/bin"
                else if k = "HOME" then some "/root" else none) cfgBase = none :=
  ⟨(build_environment_merge
      (fun k => if k = "PATH" then some "/bin"
                else if k = "HOME" then some "/root" else none)
      "python3"
      { script_path := "job.py",
        environment_variables := some [("PATH", "/opt")] }).2.1
      [("PATH", "/opt")] rfl (by decide) (by decide),
   (build_environment_merge
      (fun k => if k = "PATH" then some "/bin"
                else if k = "HOME" then some "/root" else none)
      "python3" cfgBase).2.2 (Or.inl rfl)⟩

end JobFlow
